import Mathlib

/-!
Shallow embedding of the cart-recovery subsystem of the
whatsapp-metastore repository.  The record store (Prisma) is modelled as
an in-memory database value; remote commerce and messaging calls are
modelled by an oracle record giving their outcomes; timestamps are
integers (milliseconds); money amounts are rationals.  Each definition
mirrors one function of `src/lib/sync/cart-sync.ts`,
`src/app/api/cron/cart-recovery/route.ts` or the manual recovery route.
-/

namespace Metastore

/-- Prisma enum RecoveryStatus. -/
inductive RecoveryStatus where
  | NONE
  | ABANDONED
  | NOTIFIED_FIRST
  | NOTIFIED_FINAL
  | RECOVERED
  | LOST
deriving DecidableEq

/-- MetastoreCartItem from cart-sync.ts (id, name, price, quantity, optional image). -/
structure MetastoreCartItem where
  id : String
  name : String
  price : ℚ
  quantity : ℕ
  image : Option String
deriving DecidableEq

/-- Prisma Cart record: the fields the recovery subsystem reads or writes. -/
structure Cart where
  id : String
  storeId : String
  customerName : Option String
  customerEmail : Option String
  customerPhone : Option String
  items : List MetastoreCartItem
  total : ℚ
  recoveryStatus : RecoveryStatus
  abandonedAt : Option Int
  updatedAt : Int
  lastNotifiedAt : Option Int
  recoveredAt : Option Int
  discountCode : Option String
  discountAmount : Option ℚ
  shopifyCartId : Option String
deriving DecidableEq

/-- Prisma Store record: per-tenant credentials and the active flag. -/
structure Store where
  id : String
  shopifyAccessToken : Option String
  shopifyStoreUrl : Option String
  whatsappPhoneNumberId : Option String
  whatsappAccessToken : Option String
  isActive : Bool
deriving DecidableEq

/-- Prisma Product record (the fields read during import). -/
structure Product where
  id : String
  name : String
  price : ℚ
  images : List String
deriving DecidableEq

/-- Prisma ProductMapping record: local product id to remote variant id, per store. -/
structure ProductMapping where
  storeId : String
  metastoreProductId : String
  shopifyVariantId : String
deriving DecidableEq

/-- The record store as a value. -/
structure DB where
  stores : List Store
  carts : List Cart
  products : List Product
  productMappings : List ProductMapping
deriving DecidableEq

/-- JavaScript truthiness of a nullable string: null and the empty string are falsy. -/
def strTruthy : Option String → Bool
  | none => false
  | some s => !(s == "")

/-- JavaScript truthiness of a nullable number: null and 0 are falsy. -/
def numTruthy : Option ℚ → Bool
  | none => false
  | some d => !(d == 0)

/-- The string held by an optional, with empty default. -/
def orEmpty : Option String → String
  | none => ""
  | some s => s

/-- prisma.cart.findUnique by id. -/
def findCart (db : DB) (cartId : String) : Option Cart :=
  db.carts.find? (fun c => c.id == cartId)

/-- prisma.store.findUnique by id. -/
def findStore (db : DB) (storeId : String) : Option Store :=
  db.stores.find? (fun s => s.id == storeId)

/-- prisma.cart.update by id: rewrite the matching cart records in place. -/
def updateCart (db : DB) (cartId : String) (f : Cart → Cart) : DB :=
  { db with carts := db.carts.map (fun c => if c.id == cartId then f c else c) }

/-- CartSyncService.initialize (cart-sync.ts lines 49-72): look the store up and
require both Shopify credentials to be truthy; messaging credentials are not read. -/
def initOk (db : DB) (storeId : String) : Bool :=
  match findStore db storeId with
  | none => false
  | some s => strTruthy s.shopifyAccessToken && strTruthy s.shopifyStoreUrl

/-- CartSyncService.processRecovery (cart-sync.ts lines 672-688): prisma update
to RECOVERED with recoveredAt = now; the update throws when the cart is absent,
which the catch turns into false.  No credential or initialization check occurs. -/
def processRecovery (db : DB) (now : Int) (cartId : String) : Bool × DB :=
  match findCart db cartId with
  | none => (false, db)
  | some _ =>
      (true, updateCart db cartId (fun c =>
        { c with recoveryStatus := RecoveryStatus.RECOVERED, recoveredAt := some now }))

/-- Count of carts of the store in one status (prisma.cart.count by storeId and status). -/
def countStatus (db : DB) (storeId : String) (st : RecoveryStatus) : ℕ :=
  (db.carts.filter (fun c => c.storeId == storeId && c.recoveryStatus == st)).length

/-- Result record of CartSyncService.getRecoveryStats. -/
structure RecoveryStats where
  abandoned : ℕ
  notified : ℕ
  recovered : ℕ
  lost : ℕ
  recoveryRate : ℚ
  revenue : ℚ
deriving DecidableEq

/-- Combined notified count of getRecoveryStats: NOTIFIED_FIRST plus NOTIFIED_FINAL
(cart-sync.ts line 739). -/
def notifiedCount (db : DB) (storeId : String) : ℕ :=
  countStatus db storeId RecoveryStatus.NOTIFIED_FIRST
    + countStatus db storeId RecoveryStatus.NOTIFIED_FINAL

/-- Revenue reduction of getRecoveryStats (cart-sync.ts lines 743-758): sum over
RECOVERED carts of the store, subtracting a truthy discountAmount. -/
def recoveryRevenue (db : DB) (storeId : String) : ℚ :=
  (db.carts.filter
    (fun c => c.storeId == storeId && c.recoveryStatus == RecoveryStatus.RECOVERED)).foldl
    (fun sum c => sum + (if numTruthy c.discountAmount
      then c.total - (c.discountAmount.getD 0) else c.total)) 0

/-- CartSyncService.getRecoveryStats (cart-sync.ts lines 693-779): count each
status, notified = NOTIFIED_FIRST + NOTIFIED_FINAL, rate guarded by notified > 0,
revenue summed over RECOVERED carts subtracting a truthy discountAmount. -/
def getRecoveryStats (db : DB) (storeId : String) : RecoveryStats :=
  { abandoned := countStatus db storeId RecoveryStatus.ABANDONED
    notified := notifiedCount db storeId
    recovered := countStatus db storeId RecoveryStatus.RECOVERED
    lost := countStatus db storeId RecoveryStatus.LOST
    recoveryRate :=
      if 0 < notifiedCount db storeId then
        ((countStatus db storeId RecoveryStatus.RECOVERED : ℚ)
            / (notifiedCount db storeId : ℚ)) * 100
      else 0
    revenue := recoveryRevenue db storeId }

/-- A database whose stores have every credential removed. -/
def scrubCredentials (db : DB) : DB :=
  { db with stores := db.stores.map (fun s =>
      { s with shopifyAccessToken := none, shopifyStoreUrl := none,
               whatsappPhoneNumberId := none, whatsappAccessToken := none }) }

/-- Outcomes of the remote commerce and messaging calls during one operation:
updateShopifyCart success, createShopifyCart result, getShopifyCart success,
getShopifyCheckoutUrl result, and the WhatsApp send response. -/
structure RemoteEnv where
  updateOk : Bool
  createdId : Option String
  fetchOk : Bool
  checkoutUrl : Option String
  waSendOk : Bool

/-- Tail of CartSyncService.syncCartToShopify (cart-sync.ts lines 344-360):
create a new remote cart; on success persist the new remote id on the local
cart; return the created id or null. -/
def syncCreateNew (env : RemoteEnv) (db : DB) (cartId : String) : Option String × DB :=
  match env.createdId with
  | some nid => (some nid, updateCart db cartId (fun c => { c with shopifyCartId := some nid }))
  | none => (none, db)

/-- CartSyncService.syncCartToShopify (cart-sync.ts lines 318-365): look the
cart up (null when absent); when it already holds a remote id try the update
first and return that id on success; on update failure, or with no remote id,
fall through to creation. -/
def syncCartToShopify (env : RemoteEnv) (db : DB) (cartId : String) : Option String × DB :=
  match findCart db cartId with
  | none => (none, db)
  | some cart =>
      match cart.shopifyCartId with
      | some sid =>
          if env.updateOk then (some sid, db)
          else syncCreateNew env db cartId
      | none => syncCreateNew env db cartId

/-- CartSyncService.getCartRecoveryUrl (cart-sync.ts lines 503-536): requires
an attached remote id, re-syncs first (discarding the result), fetches the
remote cart, resolves the checkout URL and appends a truthy discount code. -/
def getCartRecoveryUrl (env : RemoteEnv) (db : DB) (cartId : String) : Option String × DB :=
  match findCart db cartId with
  | none => (none, db)
  | some cart =>
      match cart.shopifyCartId with
      | none => (none, db)
      | some _ =>
          let db1 := (syncCartToShopify env db cartId).2
          if !env.fetchOk then (none, db1)
          else
            match env.checkoutUrl with
            | none => (none, db1)
            | some u =>
                if strTruthy cart.discountCode then
                  (some (u ++ "&discount=" ++ orEmpty cart.discountCode), db1)
                else (some u, db1)

/-- Rendered percentage of the discount call-to-action. -/
inductive PercentText where
  | omitted
  | shown (n : Int)
  | infinite
deriving DecidableEq

/-- JavaScript Number.prototype.toFixed with zero digits on a finite value:
round to the nearest integer, ties toward positive infinity. -/
def jsToFixed0 (q : ℚ) : Int := ⌊q + 1 / 2⌋

/-- Percentage text of cart-sync.ts line 624:
`cart.discountAmount ? (cart.discountAmount/cart.total*100).toFixed(0) : ""`.
The guard is the truthiness of discountAmount alone; with a truthy
discountAmount and total = 0 the JavaScript division yields Infinity and
toFixed renders it, so the percentage is not omitted. -/
def discountPercentText (discountAmount : Option ℚ) (total : ℚ) : PercentText :=
  if !(numTruthy discountAmount) then PercentText.omitted
  else if total == 0 then PercentText.infinite
  else PercentText.shown (jsToFixed0 ((discountAmount.getD 0) / total * 100))

/-- Final line of the recovery message template. -/
inductive DiscountLine where
  | prompt
  | codeOffer (code : String) (pct : PercentText)
deriving DecidableEq

/-- Discount branch of the message template (cart-sync.ts lines 622-626):
with a truthy discount code the message offers the code with the rendered
percentage, otherwise it asks to complete the purchase. -/
def messageDiscountLine (discountCode : Option String) (discountAmount : Option ℚ)
    (total : ℚ) : DiscountLine :=
  if strTruthy discountCode then
    DiscountLine.codeOffer (orEmpty discountCode) (discountPercentText discountAmount total)
  else DiscountLine.prompt

/-- CartSyncService.sendCartRecoveryMessage (cart-sync.ts lines 587-667):
requires the cart, its customer phone and both messaging credentials of its
store; requires a recovery URL; on a successful send sets lastNotifiedAt to
now and advances the status read at entry: ABANDONED becomes NOTIFIED_FIRST,
anything else becomes NOTIFIED_FINAL. -/
def sendCartRecoveryMessage (env : RemoteEnv) (db : DB) (now : Int) (cartId : String) :
    Bool × DB :=
  match findCart db cartId with
  | none => (false, db)
  | some cart =>
      match findStore db cart.storeId with
      | none => (false, db)
      | some store =>
          if !(strTruthy cart.customerPhone && strTruthy store.whatsappPhoneNumberId &&
               strTruthy store.whatsappAccessToken) then (false, db)
          else
            match getCartRecoveryUrl env db cartId with
            | (none, db1) => (false, db1)
            | (some _, db1) =>
                if !env.waSendOk then (false, db1)
                else
                  (true, updateCart db1 cartId (fun c =>
                    { c with lastNotifiedAt := some now,
                             recoveryStatus :=
                               if cart.recoveryStatus = RecoveryStatus.ABANDONED
                               then RecoveryStatus.NOTIFIED_FIRST
                               else RecoveryStatus.NOTIFIED_FINAL }))

/-- Remote line item of an abandoned checkout (variant id and quantity). -/
structure ShopifyLineItem where
  variant_id : String
  quantity : ℕ
deriving DecidableEq

/-- Customer block of a remote abandoned checkout. -/
structure ShopifyCustomer where
  first_name : Option String
  last_name : Option String
deriving DecidableEq

/-- Remote abandoned-checkout record returned by getAbandonedCarts. -/
structure ShopifyCheckout where
  id : String
  email : Option String
  phone : Option String
  customer : Option ShopifyCustomer
  line_items : List ShopifyLineItem
  created_at : Int
  updated_at : Int
deriving DecidableEq

/-- prisma.productMapping.findFirst by (shopifyVariantId, storeId). -/
def findMappingByVariant (db : DB) (storeId variantId : String) : Option ProductMapping :=
  db.productMappings.find? (fun m => m.shopifyVariantId == variantId && m.storeId == storeId)

/-- prisma.product.findUnique by id. -/
def findProduct (db : DB) (pid : String) : Option Product :=
  db.products.find? (fun p => p.id == pid)

/-- CartSyncService.mapShopifyItemsToMetastore (cart-sync.ts lines 456-498):
per line item look up the mapping by (variant, store) then the product by the
mapped id; items missing either are dropped; the rest become local items with
the product price and the remote quantity. -/
def mapShopifyItemsToMetastore (db : DB) (storeId : String) :
    List ShopifyLineItem → List MetastoreCartItem
  | [] => []
  | item :: rest =>
      match findMappingByVariant db storeId item.variant_id with
      | none => mapShopifyItemsToMetastore db storeId rest
      | some m =>
          match findProduct db m.metastoreProductId with
          | none => mapShopifyItemsToMetastore db storeId rest
          | some p =>
              { id := p.id, name := p.name, price := p.price,
                quantity := item.quantity, image := p.images.head? }
                :: mapShopifyItemsToMetastore db storeId rest

/-- Customer display name built during import (cart-sync.ts line 432). -/
def importedCustomerName (customer : Option ShopifyCustomer) : Option String :=
  match customer with
  | none => none
  | some cu =>
      if strTruthy cu.first_name then
        some (String.trim (orEmpty cu.first_name ++ " " ++ orEmpty cu.last_name))
      else none

/-- The local cart created for one remote checkout (cart-sync.ts lines 428-441):
status ABANDONED, abandonment timestamp = remote creation time, update
timestamp = remote update time, total folded as sum of price times quantity.
The generated primary key comes from the supplied generator. -/
def importedCart (db : DB) (storeId : String) (genId : ShopifyCheckout → String)
    (ck : ShopifyCheckout) : Cart :=
  let cartItems := mapShopifyItemsToMetastore db storeId ck.line_items
  { id := genId ck
    storeId := storeId
    customerName := importedCustomerName ck.customer
    customerEmail := ck.email
    customerPhone := ck.phone
    items := cartItems
    total := cartItems.foldl (fun s i => s + i.price * (i.quantity : ℚ)) 0
    recoveryStatus := RecoveryStatus.ABANDONED
    abandonedAt := some ck.created_at
    updatedAt := ck.updated_at
    lastNotifiedAt := none
    recoveredAt := none
    discountCode := none
    discountAmount := none
    shopifyCartId := some ck.id }

/-- prisma.cart.findFirst by (shopifyCartId, storeId) as a Boolean
(cart-sync.ts lines 405-410). -/
def existsImported (db : DB) (storeId ckId : String) : Bool :=
  db.carts.any (fun c => c.shopifyCartId == some ckId && c.storeId == storeId)

/-- Body of the import loop for one checkout (cart-sync.ts lines 403-444):
skip when already imported; skip when no line item is mappable; otherwise
append the new local cart and count it. -/
def importOne (genId : ShopifyCheckout → String) (storeId : String) (db : DB)
    (ck : ShopifyCheckout) : ℕ × DB :=
  if existsImported db storeId ck.id then (0, db)
  else if (mapShopifyItemsToMetastore db storeId ck.line_items).isEmpty then (0, db)
  else (1, { db with carts := db.carts ++ [importedCart db storeId genId ck] })

/-- CartSyncService.importAbandonedCarts (cart-sync.ts lines 398-451): fold
the import step over the fetched checkouts, accumulating the created count. -/
def importAbandonedCarts (genId : ShopifyCheckout → String) (db : DB) (storeId : String)
    (cks : List ShopifyCheckout) : ℕ × DB :=
  cks.foldl (fun acc ck =>
    let r := importOne genId storeId acc.2 ck
    (acc.1 + r.1, r.2)) (0, db)

/-- Number of local carts of the store holding one remote checkout id. -/
def countImported (db : DB) (storeId ckId : String) : ℕ :=
  (db.carts.filter (fun c => c.shopifyCartId == some ckId && c.storeId == storeId)).length

/-- One hour in milliseconds. -/
def hourMs : Int := 60 * 60 * 1000

/-- Whether a cart qualifies for the expiry bulk update of the scan
(route.ts lines 132-143): same store, NOTIFIED_FINAL, lastNotifiedAt strictly
before now minus 48 hours (a null timestamp never matches the lt filter). -/
def lostFilter (storeId : String) (now : Int) (c : Cart) : Bool :=
  c.storeId == storeId && c.recoveryStatus == RecoveryStatus.NOTIFIED_FINAL &&
    (match c.lastNotifiedAt with
     | some t => decide (t < now - 48 * hourMs)
     | none => false)

/-- Phase 4 of the scan (route.ts lines 131-146): prisma.cart.updateMany, a
single set-based update turning every matching cart to LOST. -/
def markLostPass (db : DB) (storeId : String) (now : Int) : DB :=
  { db with carts := db.carts.map (fun c =>
      if lostFilter storeId now c then { c with recoveryStatus := RecoveryStatus.LOST } else c) }

/-- Phase 2 selection of the scan (route.ts lines 56-67): store match, stale
for over an hour, status NONE, phone present. -/
def abandonedSelection (db : DB) (storeId : String) (now : Int) : List Cart :=
  db.carts.filter (fun c =>
    c.storeId == storeId && decide (c.updatedAt < now - hourMs) &&
      c.recoveryStatus == RecoveryStatus.NONE && c.customerPhone.isSome)

/-- Phase 3 selection of the scan (route.ts lines 99-110): store match, status
NOTIFIED_FIRST, last notified over 24 hours ago, phone present. -/
def followUpSelection (db : DB) (storeId : String) (now : Int) : List Cart :=
  db.carts.filter (fun c =>
    c.storeId == storeId && c.recoveryStatus == RecoveryStatus.NOTIFIED_FIRST &&
      (match c.lastNotifiedAt with
       | some t => decide (t < now - 24 * hourMs)
       | none => false) && c.customerPhone.isSome)

/-- Responses of the manual recovery endpoint. -/
inductive ApiResponse where
  | badRequest (msg : String)
  | notFound (msg : String)
  | serverError (msg : String)
  | redirect (url : String)
deriving DecidableEq

/-- GET handler of the manual recovery route: require a truthy cartId
parameter; 404 when the cart is absent; reject a truthy code parameter that
differs from a truthy stored discount code; require initialization; process
the recovery (marking the cart RECOVERED); then resolve the recovery URL and
redirect, or report failure with the recovery already applied. -/
def recoverEndpointGET (env : RemoteEnv) (db : DB) (now : Int)
    (cartIdParam codeParam : Option String) : ApiResponse × DB :=
  if !(strTruthy cartIdParam) then (ApiResponse.badRequest "Cart ID is required", db)
  else
    let cartId := orEmpty cartIdParam
    match findCart db cartId with
    | none => (ApiResponse.notFound "Cart not found", db)
    | some cart =>
        if strTruthy codeParam && strTruthy cart.discountCode &&
           !(orEmpty codeParam == orEmpty cart.discountCode) then
          (ApiResponse.badRequest "Invalid discount code", db)
        else if !(initOk db cart.storeId) then
          (ApiResponse.serverError "Failed to initialize cart sync service", db)
        else
          match processRecovery db now cartId with
          | (false, db1) => (ApiResponse.serverError "Failed to process recovery", db1)
          | (true, db1) =>
              match getCartRecoveryUrl env db1 cartId with
              | (none, db2) => (ApiResponse.serverError "Failed to get recovery URL", db2)
              | (some url, db2) => (ApiResponse.redirect url, db2)

/-- A cart with neutral defaults, for concrete instances. -/
def baseCart : Cart :=
  { id := "c0", storeId := "s0", customerName := none, customerEmail := none,
    customerPhone := none, items := [], total := 0,
    recoveryStatus := RecoveryStatus.NONE, abandonedAt := none, updatedAt := 0,
    lastNotifiedAt := none, recoveredAt := none, discountCode := none,
    discountAmount := none, shopifyCartId := none }

/-- A store with neutral defaults, for concrete instances. -/
def baseStore : Store :=
  { id := "s0", shopifyAccessToken := none, shopifyStoreUrl := none,
    whatsappPhoneNumberId := none, whatsappAccessToken := none, isActive := true }

/-- An empty record store. -/
def emptyDB : DB := { stores := [], carts := [], products := [], productMappings := [] }

/-- Store lacking both Shopify credentials but holding messaging credentials. -/
def exStoreNoShopify : Store :=
  { baseStore with
    id := "s1"
    whatsappPhoneNumberId := some "wa-ph", whatsappAccessToken := some "wa-tok" }

/-- Store holding Shopify credentials but lacking both messaging credentials. -/
def exStoreNoWa : Store :=
  { baseStore with
    id := "s2"
    shopifyAccessToken := some "shp-tok", shopifyStoreUrl := some "https://shop.example" }

/-- An abandoned cart of the store lacking Shopify credentials. -/
def exCart1 : Cart :=
  { baseCart with
    id := "c1", storeId := "s1", customerPhone := some "123",
    recoveryStatus := RecoveryStatus.ABANDONED, abandonedAt := some 0 }

/-- Database for the initialization-gate instance. -/
def exDb1 : DB :=
  { stores := [exStoreNoShopify, exStoreNoWa], carts := [exCart1],
    products := [], productMappings := [] }

/-- Database with five notified carts and two recovered carts of one store. -/
def exDb7 : DB :=
  { stores := []
    carts :=
      [ { baseCart with
            id := "n1", storeId := "s7"
            recoveryStatus := RecoveryStatus.NOTIFIED_FIRST },
        { baseCart with
            id := "n2", storeId := "s7"
            recoveryStatus := RecoveryStatus.NOTIFIED_FIRST },
        { baseCart with
            id := "n3", storeId := "s7"
            recoveryStatus := RecoveryStatus.NOTIFIED_FIRST },
        { baseCart with
            id := "n4", storeId := "s7"
            recoveryStatus := RecoveryStatus.NOTIFIED_FINAL },
        { baseCart with
            id := "n5", storeId := "s7"
            recoveryStatus := RecoveryStatus.NOTIFIED_FINAL },
        { baseCart with
            id := "r1", storeId := "s7"
            recoveryStatus := RecoveryStatus.RECOVERED, total := 100 },
        { baseCart with
            id := "r2", storeId := "s7"
            recoveryStatus := RecoveryStatus.RECOVERED, total := 50 } ]
    products := [], productMappings := [] }

/-- Remote oracle in which every remote call succeeds. -/
def happyEnv : RemoteEnv :=
  { updateOk := true, createdId := some "gid://new-cart",
    fetchOk := true, checkoutUrl := some "https://shop.example/checkout?c=1",
    waSendOk := true }

/-- Store with full credentials, for the notification and endpoint instances. -/
def exStoreFull : Store :=
  { id := "s3", shopifyAccessToken := some "shp-tok",
    shopifyStoreUrl := some "https://shop.example",
    whatsappPhoneNumberId := some "wa-ph", whatsappAccessToken := some "wa-tok",
    isActive := true }

/-- Abandoned cart with phone and remote id, ready for a recovery message. -/
def exCart3 : Cart :=
  { baseCart with
    id := "c3", storeId := "s3", customerPhone := some "5551234",
    recoveryStatus := RecoveryStatus.ABANDONED, abandonedAt := some 0,
    shopifyCartId := some "gid://cart-3", total := 25 }

/-- Database for the notification and endpoint instances. -/
def exDb3 : DB :=
  { stores := [exStoreFull], carts := [exCart3], products := [], productMappings := [] }

/-- Cart already notified once, for the follow-up instance. -/
def exCart3b : Cart :=
  { exCart3 with
    id := "c3b", recoveryStatus := RecoveryStatus.NOTIFIED_FIRST,
    lastNotifiedAt := some 0 }

/-- Database holding the already-notified cart. -/
def exDb3b : DB :=
  { exDb3 with carts := [exCart3b] }

/-- Checkout record with one mappable line item, for the import instances. -/
def exCheckout : ShopifyCheckout :=
  { id := "900001", email := some "a@b.c", phone := some "5559999",
    customer := some { first_name := some "Ada", last_name := some "L" },
    line_items := [{ variant_id := "v-1", quantity := 2 }],
    created_at := 1000, updated_at := 2000 }

/-- Database with the mapping and product resolving the example checkout. -/
def exDb4 : DB :=
  { stores := [], carts := [],
    products := [{ id := "p-1", name := "Mug", price := 7, images := ["img1"] }],
    productMappings := [{ storeId := "s4", metastoreProductId := "p-1",
                          shopifyVariantId := "v-1" }] }

/-- Identifier generator for the import instances. -/
def exGenId (ck : ShopifyCheckout) : String := "local-" ++ ck.id

/-- NOTIFIED_FINAL cart last notified at time zero, for the expiry boundary. -/
def exCart6 : Cart :=
  { baseCart with
    id := "c6", storeId := "s6",
    recoveryStatus := RecoveryStatus.NOTIFIED_FINAL, lastNotifiedAt := some 0,
    customerPhone := some "5550000" }

/-- Database holding the boundary cart. -/
def exDb6 : DB :=
  { stores := [], carts := [exCart6], products := [], productMappings := [] }

/-- Cart carrying a discount code, for the endpoint mismatch instance. -/
def exCart9 : Cart :=
  { exCart3 with
    id := "c9", discountCode := some "SAVE10", discountAmount := some 5 }

/-- Database for the endpoint instances. -/
def exDb9 : DB :=
  { exDb3 with carts := [exCart9] }

/-- Remote oracle whose remote-cart fetch fails, for the no-rollback instance. -/
def fetchFailEnv : RemoteEnv :=
  { happyEnv with fetchOk := false }

/-- Remote oracle whose update call fails but whose create call succeeds. -/
def fallbackEnv : RemoteEnv :=
  { happyEnv with updateOk := false }

/-- Remote oracle whose update and create calls both fail. -/
def bothFailEnv : RemoteEnv :=
  { happyEnv with updateOk := false, createdId := none }

/-- find? by id commutes with an id-preserving per-record rewrite. -/
lemma find?_map_pres (l : List Cart) (tid cid : String) (f : Cart → Cart)
    (hf : ∀ c, (f c).id = c.id) :
    (l.map (fun c => if c.id == cid then f c else c)).find? (fun c => c.id == tid)
      = (l.find? (fun c => c.id == tid)).map (fun c => if c.id == cid then f c else c) := by
  induction l with
  | nil => rfl
  | cons a l ih =>
    have hid : (if (a.id == cid) = true then f a else a).id = a.id := by
      split
      · exact hf a
      · rfl
    simp only [List.map_cons, List.find?, hid]
    cases h : (a.id == tid) with
    | true => rfl
    | false => exact ih

/-- findCart after updateCart: the looked-up record is the rewritten one. -/
lemma findCart_updateCart (db : DB) (cid tid : String) (f : Cart → Cart)
    (hf : ∀ c, (f c).id = c.id) :
    findCart (updateCart db cid f) tid
      = (findCart db tid).map (fun c => if c.id == cid then f c else c) :=
  find?_map_pres db.carts tid cid f hf

/-- The state after syncCartToShopify is the old one, or the old one with the
created remote id persisted on the target cart. -/
lemma syncCartToShopify_snd (env : RemoteEnv) (db : DB) (cid : String) :
    (syncCartToShopify env db cid).2 = db ∨
    ∃ nid, (syncCartToShopify env db cid).2
        = updateCart db cid (fun c => { c with shopifyCartId := some nid }) := by
  cases hfind : findCart db cid with
  | none => left; simp [syncCartToShopify, hfind]
  | some cart =>
    cases hsid : cart.shopifyCartId with
    | some sid =>
      cases hupd : env.updateOk with
      | true => left; simp [syncCartToShopify, hfind, hsid, hupd]
      | false =>
        cases henv : env.createdId with
        | some nid =>
          right
          exact ⟨nid, by simp [syncCartToShopify, syncCreateNew, hfind, hsid, hupd, henv]⟩
        | none => left; simp [syncCartToShopify, syncCreateNew, hfind, hsid, hupd, henv]
    | none =>
      cases henv : env.createdId with
      | some nid =>
        right
        exact ⟨nid, by simp [syncCartToShopify, syncCreateNew, hfind, hsid, henv]⟩
      | none => left; simp [syncCartToShopify, syncCreateNew, hfind, hsid, henv]

/-- syncCartToShopify only ever touches the shopifyCartId field of a cart. -/
lemma findCart_sync (env : RemoteEnv) (db : DB) (cid tid : String) (cart : Cart)
    (h : findCart db tid = some cart) :
    ∃ cart1, findCart (syncCartToShopify env db cid).2 tid = some cart1 ∧
      cart1.id = cart.id ∧ cart1.storeId = cart.storeId ∧
      cart1.recoveryStatus = cart.recoveryStatus ∧
      cart1.lastNotifiedAt = cart.lastNotifiedAt ∧
      cart1.recoveredAt = cart.recoveredAt ∧
      cart1.discountCode = cart.discountCode ∧
      cart1.total = cart.total := by
  rcases syncCartToShopify_snd env db cid with heq | ⟨nid, heq⟩
  · exact ⟨cart, by rw [heq, h], rfl, rfl, rfl, rfl, rfl, rfl, rfl⟩
  · rw [heq,
        findCart_updateCart db cid tid
          (fun c => { c with shopifyCartId := some nid }) (fun c => rfl), h]
    refine ⟨_, rfl, ?_, ?_, ?_, ?_, ?_, ?_, ?_⟩ <;> dsimp only <;> split <;> rfl

/-- The state after getCartRecoveryUrl is the old one or the synced one. -/
lemma getCartRecoveryUrl_snd (env : RemoteEnv) (db : DB) (cid : String) :
    (getCartRecoveryUrl env db cid).2 = db ∨
    (getCartRecoveryUrl env db cid).2 = (syncCartToShopify env db cid).2 := by
  cases hfind : findCart db cid with
  | none => left; simp [getCartRecoveryUrl, hfind]
  | some c0 =>
    cases hsid : c0.shopifyCartId with
    | none => left; simp [getCartRecoveryUrl, hfind, hsid]
    | some sid =>
      right
      cases hfetch : env.fetchOk with
      | false => simp [getCartRecoveryUrl, hfind, hsid, hfetch]
      | true =>
        cases hurl : env.checkoutUrl with
        | none => simp [getCartRecoveryUrl, hfind, hsid, hfetch, hurl]
        | some u =>
          cases hdc : strTruthy c0.discountCode with
          | true => simp [getCartRecoveryUrl, hfind, hsid, hfetch, hurl, hdc]
          | false => simp [getCartRecoveryUrl, hfind, hsid, hfetch, hurl, hdc]

/-- getCartRecoveryUrl only ever touches the shopifyCartId field of a cart. -/
lemma findCart_getRecoveryUrl (env : RemoteEnv) (db : DB) (cid tid : String) (cart : Cart)
    (h : findCart db tid = some cart) :
    ∃ cart1, findCart (getCartRecoveryUrl env db cid).2 tid = some cart1 ∧
      cart1.id = cart.id ∧ cart1.storeId = cart.storeId ∧
      cart1.recoveryStatus = cart.recoveryStatus ∧
      cart1.lastNotifiedAt = cart.lastNotifiedAt ∧
      cart1.recoveredAt = cart.recoveredAt ∧
      cart1.discountCode = cart.discountCode ∧
      cart1.total = cart.total := by
  rcases getCartRecoveryUrl_snd env db cid with heq | heq
  · exact ⟨cart, by rw [heq, h], rfl, rfl, rfl, rfl, rfl, rfl, rfl⟩
  · rw [heq]
    exact findCart_sync env db cid tid cart h

/-- C1 counterexample: store s1 lacks the external-platform credentials, so the
engine is uninitialized for it, yet processRecovery still returns true and
performs its state change (cart c1 becomes RECOVERED) and getRecoveryStats
returns the real count; store s2 lacks both messaging credentials yet
initializes successfully. -/
theorem C1_uninit_state_change :
  initOk exDb1 "s1" = false ∧
  initOk exDb1 "s2" = true ∧
  (processRecovery exDb1 5 "c1").1 = true ∧
  findCart (processRecovery exDb1 5 "c1").2 "c1"
    = some { exCart1 with recoveryStatus := RecoveryStatus.RECOVERED, recoveredAt := some 5 } ∧
  (getRecoveryStats exDb1 "s1").abandoned = 1 := by
  decide

/-- C1 amended: initialization checks exactly the presence of the two
external-platform credentials of the store (messaging credentials are not part
of the initialization gate), while processRecovery succeeds precisely when the
cart exists and getRecoveryStats is insensitive to every credential, so neither
operation fails fast on an uninitialized engine. -/
theorem C1_init_scope :
  ∀ (db : DB) (storeId : String) (now : Int) (cartId : String),
    (initOk db storeId = true ↔ ∃ s, findStore db storeId = some s ∧
        strTruthy s.shopifyAccessToken = true ∧ strTruthy s.shopifyStoreUrl = true) ∧
    (processRecovery db now cartId).1 = (findCart db cartId).isSome ∧
    getRecoveryStats (scrubCredentials db) storeId = getRecoveryStats db storeId := by
  intro db sid now cid
  refine ⟨?_, ?_, rfl⟩
  · unfold initOk
    cases h : findStore db sid with
    | none => simp [h]
    | some s => simp [h, Bool.and_eq_true]
  · unfold processRecovery
    cases h : findCart db cid <;> simp [h]

/-- C2: at the failing input (discount code present, discountAmount 5, total 0)
the rendered message does not omit the percentage; the JavaScript division by
the zero total yields Infinity and toFixed renders it.  With a nonzero total
the percentage is discountAmount/total*100 rounded, and it is omitted when
discountAmount is absent. -/
theorem C2_total_zero_bug :
  messageDiscountLine (some "SAVE10") (some 5) 0
      = DiscountLine.codeOffer "SAVE10" PercentText.infinite ∧
  discountPercentText (some 5) 0 ≠ PercentText.omitted ∧
  discountPercentText (some 5) 200 = PercentText.shown 3 ∧
  discountPercentText none 200 = PercentText.omitted := by
  have hb5 : ((5 : ℚ) == 0) = false := by
    simp only [beq_eq_false_iff_ne, ne_eq]
    norm_num
  have hb200 : ((200 : ℚ) == 0) = false := by
    simp only [beq_eq_false_iff_ne, ne_eq]
    norm_num
  have h5 : numTruthy (some (5 : ℚ)) = true := by simp [numTruthy, hb5]
  have hcode : strTruthy (some "SAVE10") = true := by decide
  have hfloor : jsToFixed0 ((5 : ℚ) / 200 * 100) = 3 := by
    have h3 : (5 : ℚ) / 200 * 100 + 1 / 2 = 3 := by norm_num
    unfold jsToFixed0
    rw [h3]
    norm_num
  refine ⟨?_, ?_, ?_, ?_⟩
  · simp [messageDiscountLine, hcode, discountPercentText, h5, orEmpty]
  · simp [discountPercentText, h5]
  · simp [discountPercentText, h5, hb200, Option.getD, hfloor]
  · simp [discountPercentText, numTruthy]

/-- C7: the recovery rate is recovered/notified*100 whenever the notified count
(NOTIFIED_FIRST plus NOTIFIED_FINAL) is positive and 0 when it is 0, and on a
store with 5 notified and 2 recovered carts the rate is 40. -/
theorem C7_recovery_rate :
  (∀ (db : DB) (storeId : String),
    (getRecoveryStats db storeId).notified
        = countStatus db storeId RecoveryStatus.NOTIFIED_FIRST
          + countStatus db storeId RecoveryStatus.NOTIFIED_FINAL ∧
    (getRecoveryStats db storeId).recovered
        = countStatus db storeId RecoveryStatus.RECOVERED ∧
    ((getRecoveryStats db storeId).notified = 0 →
        (getRecoveryStats db storeId).recoveryRate = 0) ∧
    (0 < (getRecoveryStats db storeId).notified →
        (getRecoveryStats db storeId).recoveryRate
          = ((getRecoveryStats db storeId).recovered : ℚ)
              / ((getRecoveryStats db storeId).notified : ℚ) * 100)) ∧
  (getRecoveryStats exDb7 "s7").notified = 5 ∧
  (getRecoveryStats exDb7 "s7").recovered = 2 ∧
  (getRecoveryStats exDb7 "s7").recoveryRate = 40 := by
  have hn : notifiedCount exDb7 "s7" = 5 := by decide
  have hr : countStatus exDb7 "s7" RecoveryStatus.RECOVERED = 2 := by decide
  constructor
  · intro db sid
    refine ⟨rfl, rfl, ?_, ?_⟩
    · intro h
      have h0 : notifiedCount db sid = 0 := h
      simp [getRecoveryStats, h0]
    · intro h
      have h0 : 0 < notifiedCount db sid := h
      simp [getRecoveryStats, h0]
  · refine ⟨hn, hr, ?_⟩
    have hrate : (getRecoveryStats exDb7 "s7").recoveryRate
        = if 0 < notifiedCount exDb7 "s7" then
            ((countStatus exDb7 "s7" RecoveryStatus.RECOVERED : ℚ)
                / (notifiedCount exDb7 "s7" : ℚ)) * 100
          else 0 := rfl
    rw [hrate, hn, hr]
    norm_num

/-- C7 witness: on an empty store the notified count is 0 and the rate is 0;
on the store with 5 notified and 2 recovered the positive-notified formula
applies. -/
theorem C7_recovery_rate_witness :
  ((getRecoveryStats emptyDB "s").notified = 0 ∧
      (getRecoveryStats emptyDB "s").recoveryRate = 0) ∧
  (0 < (getRecoveryStats exDb7 "s7").notified ∧
      (getRecoveryStats exDb7 "s7").recoveryRate
        = ((getRecoveryStats exDb7 "s7").recovered : ℚ)
            / ((getRecoveryStats exDb7 "s7").notified : ℚ) * 100) :=
  ⟨⟨by decide, (C7_recovery_rate.1 emptyDB "s").2.2.1 (by decide)⟩,
   ⟨by decide, (C7_recovery_rate.1 exDb7 "s7").2.2.2 (by decide)⟩⟩

/-- The record found by id satisfies the id predicate. -/
lemma findCart_beq (db : DB) (cid : String) (cart : Cart)
    (h : findCart db cid = some cart) : (cart.id == cid) = true := by
  have h2 : db.carts.find? (fun c => c.id == cid) = some cart := h
  have h3 := List.find?_some h2
  exact h3

/-- C3: whenever sendCartRecoveryMessage succeeds, the cart record afterwards
carries lastNotifiedAt = now and the advanced status: NOTIFIED_FIRST when the
status at entry was ABANDONED, NOTIFIED_FINAL from every other status (hence
never back to NOTIFIED_FIRST from a notified state). -/
theorem C3_notify_progression :
  ∀ (env : RemoteEnv) (db : DB) (now : Int) (cartId : String) (cart : Cart),
    findCart db cartId = some cart →
    (sendCartRecoveryMessage env db now cartId).1 = true →
    ∃ cart2, findCart (sendCartRecoveryMessage env db now cartId).2 cartId = some cart2 ∧
      cart2.lastNotifiedAt = some now ∧
      cart2.recoveryStatus = (if cart.recoveryStatus = RecoveryStatus.ABANDONED
          then RecoveryStatus.NOTIFIED_FIRST else RecoveryStatus.NOTIFIED_FINAL) ∧
      (cart.recoveryStatus ≠ RecoveryStatus.ABANDONED →
          cart2.recoveryStatus = RecoveryStatus.NOTIFIED_FINAL) := by
  intro env db now cid cart hfind hsucc
  have hbeq := findCart_beq db cid cart hfind
  unfold sendCartRecoveryMessage at hsucc ⊢
  simp only [hfind] at hsucc ⊢
  cases hstore : findStore db cart.storeId with
  | none => simp [hstore] at hsucc
  | some store =>
    simp only [hstore] at hsucc ⊢
    cases hcred : (strTruthy cart.customerPhone && strTruthy store.whatsappPhoneNumberId &&
        strTruthy store.whatsappAccessToken) with
    | false => simp [hcred] at hsucc
    | true =>
      simp only [hcred, Bool.not_true, Bool.false_eq_true, if_false] at hsucc ⊢
      rcases hurl : getCartRecoveryUrl env db cid with ⟨urlOpt, db1⟩
      cases urlOpt with
      | none =>
        rw [hurl] at hsucc
        simp at hsucc
      | some u =>
        cases hwa : env.waSendOk with
        | false =>
          rw [hurl] at hsucc
          simp [hwa] at hsucc
        | true =>
          obtain ⟨cart1, h1, hid1, _, hst1, _, _, _, _⟩ :=
            findCart_getRecoveryUrl env db cid cid cart hfind
          rw [hurl] at h1
          have h1b : findCart db1 cid = some cart1 := h1
          have hbeq1 : (cart1.id == cid) = true := by rw [hid1]; exact hbeq
          show ∃ cart2,
            findCart (updateCart db1 cid (fun c =>
              { c with lastNotifiedAt := some now,
                       recoveryStatus :=
                         if cart.recoveryStatus = RecoveryStatus.ABANDONED
                         then RecoveryStatus.NOTIFIED_FIRST
                         else RecoveryStatus.NOTIFIED_FINAL })) cid = some cart2 ∧
            cart2.lastNotifiedAt = some now ∧
            cart2.recoveryStatus = (if cart.recoveryStatus = RecoveryStatus.ABANDONED
                then RecoveryStatus.NOTIFIED_FIRST else RecoveryStatus.NOTIFIED_FINAL) ∧
            (cart.recoveryStatus ≠ RecoveryStatus.ABANDONED →
                cart2.recoveryStatus = RecoveryStatus.NOTIFIED_FINAL)
          rw [findCart_updateCart db1 cid cid
                (fun c =>
                  { c with lastNotifiedAt := some now,
                           recoveryStatus :=
                             if cart.recoveryStatus = RecoveryStatus.ABANDONED
                             then RecoveryStatus.NOTIFIED_FIRST
                             else RecoveryStatus.NOTIFIED_FINAL })
                (fun c => rfl), h1b]
          refine ⟨_, rfl, ?_, ?_, ?_⟩
          · simp [hbeq1]
          · simp [hbeq1]
          · intro hne
            simp [hbeq1, if_neg hne]

/-- C3 witness: a concrete successful send on an ABANDONED cart, giving
lastNotifiedAt = 7 and status NOTIFIED_FIRST. -/
theorem C3_notify_progression_witness :
  findCart exDb3 "c3" = some exCart3 ∧
  (sendCartRecoveryMessage happyEnv exDb3 7 "c3").1 = true ∧
  ∃ cart2, findCart (sendCartRecoveryMessage happyEnv exDb3 7 "c3").2 "c3" = some cart2 ∧
    cart2.lastNotifiedAt = some 7 ∧
    cart2.recoveryStatus = (if exCart3.recoveryStatus = RecoveryStatus.ABANDONED
        then RecoveryStatus.NOTIFIED_FIRST else RecoveryStatus.NOTIFIED_FINAL) ∧
    (exCart3.recoveryStatus ≠ RecoveryStatus.ABANDONED →
        cart2.recoveryStatus = RecoveryStatus.NOTIFIED_FINAL) :=
  ⟨rfl, rfl, C3_notify_progression happyEnv exDb3 7 "c3" exCart3 rfl rfl⟩

/-- C8: syncCartToShopify returns null leaving the state unchanged when the
cart does not exist; with an attached remote id and a successful update it
returns that id without touching the state; with no remote id, or after a
failed update, a successful creation returns the new id and persists it on
the cart; when that creation also fails it returns null with the state
unchanged (the update failure is never propagated). -/
theorem C8_sync_fallback :
  ∀ (env : RemoteEnv) (db : DB) (cartId : String),
    (findCart db cartId = none → syncCartToShopify env db cartId = (none, db)) ∧
    (∀ cart sid, findCart db cartId = some cart → cart.shopifyCartId = some sid →
        env.updateOk = true → syncCartToShopify env db cartId = (some sid, db)) ∧
    (∀ cart nid, findCart db cartId = some cart →
        (cart.shopifyCartId = none ∨ env.updateOk = false) →
        env.createdId = some nid →
        (syncCartToShopify env db cartId).1 = some nid ∧
        ∃ cart2, findCart (syncCartToShopify env db cartId).2 cartId = some cart2 ∧
          cart2.shopifyCartId = some nid) ∧
    (∀ cart, findCart db cartId = some cart →
        (cart.shopifyCartId = none ∨ env.updateOk = false) →
        env.createdId = none →
        syncCartToShopify env db cartId = (none, db)) := by
  intro env db cid
  refine ⟨?_, ?_, ?_, ?_⟩
  · intro hfind
    simp [syncCartToShopify, hfind]
  · intro cart sid hfind hsid hupd
    simp [syncCartToShopify, hfind, hsid, hupd]
  · intro cart nid hfind hcase hcreate
    have hbeq := findCart_beq db cid cart hfind
    have hres : syncCartToShopify env db cid
        = (some nid, updateCart db cid (fun c => { c with shopifyCartId := some nid })) := by
      rcases hcase with hsid | hupd
      · simp [syncCartToShopify, syncCreateNew, hfind, hsid, hcreate]
      · cases hsid : cart.shopifyCartId with
        | none => simp [syncCartToShopify, syncCreateNew, hfind, hsid, hcreate]
        | some s => simp [syncCartToShopify, syncCreateNew, hfind, hsid, hupd, hcreate]
    rw [hres]
    refine ⟨rfl, ?_⟩
    dsimp only
    rw [findCart_updateCart db cid cid
          (fun c => { c with shopifyCartId := some nid }) (fun c => rfl), hfind]
    exact ⟨_, rfl, by simp [hbeq]⟩
  · intro cart hfind hcase hcreate
    rcases hcase with hsid | hupd
    · simp [syncCartToShopify, syncCreateNew, hfind, hsid, hcreate]
    · cases hsid : cart.shopifyCartId with
      | none => simp [syncCartToShopify, syncCreateNew, hfind, hsid, hcreate]
      | some s => simp [syncCartToShopify, syncCreateNew, hfind, hsid, hupd, hcreate]

/-- C8 witness: on the concrete cart holding remote id gid://cart-3, a
successful update returns that id unchanged; with a failing update and a
successful create the new id gid://new-cart is returned and persisted; with
both failing the result is null and the state unchanged. -/
theorem C8_sync_fallback_witness :
  (syncCartToShopify happyEnv exDb3 "c3" = (some "gid://cart-3", exDb3)) ∧
  ((syncCartToShopify fallbackEnv exDb3 "c3").1 = some "gid://new-cart" ∧
    ∃ cart2, findCart (syncCartToShopify fallbackEnv exDb3 "c3").2 "c3" = some cart2 ∧
      cart2.shopifyCartId = some "gid://new-cart") ∧
  (syncCartToShopify bothFailEnv exDb3 "c3" = (none, exDb3)) :=
  ⟨(C8_sync_fallback happyEnv exDb3 "c3").2.1 exCart3 "gid://cart-3" rfl rfl rfl,
   (C8_sync_fallback fallbackEnv exDb3 "c3").2.2.1 exCart3 "gid://new-cart" rfl
      (Or.inr rfl) rfl,
   (C8_sync_fallback bothFailEnv exDb3 "c3").2.2.2 exCart3 rfl (Or.inr rfl) rfl⟩

/-- Folding addition of a mapped value equals the initial value plus the mapped sum. -/
lemma foldl_add_map (l : List MetastoreCartItem) (g : MetastoreCartItem → ℚ) (a : ℚ) :
    l.foldl (fun s i => s + g i) a = a + (l.map g).sum := by
  induction l generalizing a with
  | nil => simp
  | cons x l ih => simp [List.foldl_cons, ih, add_assoc]

/-- A database from which no cart matches the dedup key filters to nothing. -/
lemma filter_imported_nil (db : DB) (sid ckId : String)
    (hex : existsImported db sid ckId = false) :
    db.carts.filter (fun c => c.shopifyCartId == some ckId && c.storeId == sid) = [] := by
  rw [List.filter_eq_nil_iff]
  intro a ha
  have hall := List.any_eq_false.mp hex
  exact hall a ha

/-- C4: a remote record whose id is already the remote cart id of a local cart
of the store is skipped, so importing the same remote checkout twice for the
same store leaves the state of the first import unchanged and yields exactly
one local cart keyed by (store, remote id). -/
theorem C4_import_idempotent :
  ∀ (genId : ShopifyCheckout → String) (db : DB) (sid : String) (ck : ShopifyCheckout),
    (existsImported db sid ck.id = true → importOne genId sid db ck = (0, db)) ∧
    (existsImported db sid ck.id = false →
      (mapShopifyItemsToMetastore db sid ck.line_items).isEmpty = false →
      importAbandonedCarts genId (importAbandonedCarts genId db sid [ck]).2 sid [ck]
          = (0, (importAbandonedCarts genId db sid [ck]).2) ∧
      countImported (importAbandonedCarts genId
          (importAbandonedCarts genId db sid [ck]).2 sid [ck]).2 sid ck.id = 1) := by
  intro genId db sid ck
  constructor
  · intro hex
    simp [importOne, hex]
  · intro hex hne
    have hne2 : mapShopifyItemsToMetastore db sid ck.line_items ≠ [] := by
      intro h
      rw [h] at hne
      simp at hne
    have h1 : importAbandonedCarts genId db sid [ck]
        = (1, { db with carts := db.carts ++ [importedCart db sid genId ck] }) := by
      simp [importAbandonedCarts, importOne, hex, hne, hne2]
    have hex2 : existsImported
        { db with carts := db.carts ++ [importedCart db sid genId ck] } sid ck.id = true := by
      simp [existsImported, List.any_append, importedCart]
    have h2 : importAbandonedCarts genId
        { db with carts := db.carts ++ [importedCart db sid genId ck] } sid [ck]
        = (0, { db with carts := db.carts ++ [importedCart db sid genId ck] }) := by
      simp [importAbandonedCarts, importOne, hex2]
    constructor
    · rw [h1]
      exact h2
    · rw [h1]
      show countImported (importAbandonedCarts genId
          { db with carts := db.carts ++ [importedCart db sid genId ck] } sid [ck]).2
          sid ck.id = 1
      rw [h2]
      show countImported
          { db with carts := db.carts ++ [importedCart db sid genId ck] } sid ck.id = 1
      have hnil := filter_imported_nil db sid ck.id hex
      simp [countImported, List.filter_append, hnil, importedCart]

/-- C4 witness: importing the concrete checkout 900001 twice into the store s4
creates exactly one local cart, a no-op second pass. -/
theorem C4_import_idempotent_witness :
  existsImported exDb4 "s4" exCheckout.id = false ∧
  (mapShopifyItemsToMetastore exDb4 "s4" exCheckout.line_items).isEmpty = false ∧
  (importAbandonedCarts exGenId
      (importAbandonedCarts exGenId exDb4 "s4" [exCheckout]).2 "s4" [exCheckout]
      = (0, (importAbandonedCarts exGenId exDb4 "s4" [exCheckout]).2) ∧
   countImported (importAbandonedCarts exGenId
      (importAbandonedCarts exGenId exDb4 "s4" [exCheckout]).2 "s4" [exCheckout]).2
      "s4" exCheckout.id = 1) :=
  ⟨rfl, rfl, (C4_import_idempotent exGenId exDb4 "s4" exCheckout).2 rfl rfl⟩

/-- C5: a not-yet-imported remote record with no resolvable line item creates
no cart at all, and one with resolvable items creates exactly the cart whose
total is the sum of price times quantity over the mapped items, with status
ABANDONED, abandonment timestamp the remote creation time and update timestamp
the remote update time. -/
theorem C5_import_new_cart :
  ∀ (genId : ShopifyCheckout → String) (db : DB) (sid : String) (ck : ShopifyCheckout),
    existsImported db sid ck.id = false →
    (mapShopifyItemsToMetastore db sid ck.line_items = [] →
        importOne genId sid db ck = (0, db)) ∧
    (mapShopifyItemsToMetastore db sid ck.line_items ≠ [] →
        importOne genId sid db ck
          = (1, { db with carts := db.carts ++ [importedCart db sid genId ck] }) ∧
        (importedCart db sid genId ck).total
          = ((mapShopifyItemsToMetastore db sid ck.line_items).map
              (fun i => i.price * (i.quantity : ℚ))).sum ∧
        (importedCart db sid genId ck).recoveryStatus = RecoveryStatus.ABANDONED ∧
        (importedCart db sid genId ck).abandonedAt = some ck.created_at ∧
        (importedCart db sid genId ck).updatedAt = ck.updated_at) := by
  intro genId db sid ck hex
  constructor
  · intro hm
    simp [importOne, hex, hm]
  · intro hne
    have hempty : (mapShopifyItemsToMetastore db sid ck.line_items).isEmpty = false := by
      cases hm : mapShopifyItemsToMetastore db sid ck.line_items with
      | nil => exact absurd hm hne
      | cons a l => rfl
    refine ⟨by simp [importOne, hex, hempty], ?_, rfl, rfl, rfl⟩
    show (mapShopifyItemsToMetastore db sid ck.line_items).foldl
        (fun s i => s + i.price * (i.quantity : ℚ)) 0
      = ((mapShopifyItemsToMetastore db sid ck.line_items).map
          (fun i => i.price * (i.quantity : ℚ))).sum
    rw [foldl_add_map]
    simp

/-- C5 witness: the concrete checkout 900001 resolves to one item priced 7 with
quantity 2, so a cart with total 14, status ABANDONED and the remote
timestamps is appended. -/
theorem C5_import_new_cart_witness :
  existsImported exDb4 "s4" exCheckout.id = false ∧
  mapShopifyItemsToMetastore exDb4 "s4" exCheckout.line_items ≠ [] ∧
  (importOne exGenId "s4" exDb4 exCheckout
      = (1, { exDb4 with carts := exDb4.carts ++ [importedCart exDb4 "s4" exGenId exCheckout] }) ∧
   (importedCart exDb4 "s4" exGenId exCheckout).total
      = ((mapShopifyItemsToMetastore exDb4 "s4" exCheckout.line_items).map
          (fun i => i.price * (i.quantity : ℚ))).sum ∧
   (importedCart exDb4 "s4" exGenId exCheckout).recoveryStatus = RecoveryStatus.ABANDONED ∧
   (importedCart exDb4 "s4" exGenId exCheckout).abandonedAt = some exCheckout.created_at ∧
   (importedCart exDb4 "s4" exGenId exCheckout).updatedAt = exCheckout.updated_at) :=
  ⟨rfl, by decide, (C5_import_new_cart exGenId exDb4 "s4" exCheckout rfl).2 (by decide)⟩

/-- C6 counterexample: at the 48-hour boundary the expiry filter uses a strict
lt comparison, so a NOTIFIED_FINAL cart whose last-notified timestamp is
exactly 48 hours old (last notified at 0, scanned at 48 * hourMs) is left
unchanged rather than transitioning to LOST. -/
theorem C6_boundary_counterexample :
  exCart6.recoveryStatus = RecoveryStatus.NOTIFIED_FINAL ∧
  exCart6.lastNotifiedAt = some 0 ∧
  (48 * hourMs - 0 = 48 * hourMs) ∧
  findCart (markLostPass exDb6 "s6" (48 * hourMs)) "c6" = some exCart6 := by
  decide

/-- C6 amended: in one scan pass every cart of the store in NOTIFIED_FINAL
whose last-notified timestamp is strictly more than 48 hours old becomes LOST
through the single set-based pass over the cart table; the pass touches each
record once (length preserved, and repeating the pass changes nothing because
a LOST cart no longer matches); a LOST cart is selected by neither of the
notification phases, which admit only NONE and NOTIFIED_FIRST statuses. -/
theorem C6_lost_transition :
  ∀ (db : DB) (sid : String) (now : Int),
    (∀ c, c ∈ db.carts → c.storeId = sid →
        c.recoveryStatus = RecoveryStatus.NOTIFIED_FINAL →
        ∀ t, c.lastNotifiedAt = some t → t < now - 48 * hourMs →
        { c with recoveryStatus := RecoveryStatus.LOST } ∈ (markLostPass db sid now).carts) ∧
    ((markLostPass db sid now).carts.length = db.carts.length) ∧
    (markLostPass (markLostPass db sid now) sid now = markLostPass db sid now) ∧
    (∀ c, c ∈ (markLostPass db sid now).carts →
        c.recoveryStatus = RecoveryStatus.LOST →
        c ∉ abandonedSelection (markLostPass db sid now) sid now ∧
        c ∉ followUpSelection (markLostPass db sid now) sid now) := by
  intro db sid now
  refine ⟨?_, ?_, ?_, ?_⟩
  · intro c hc h1 h2 t hlast hlt
    have hfilter : lostFilter sid now c = true := by
      simp [lostFilter, h1, h2, hlast, hlt]
    refine List.mem_map.mpr ⟨c, hc, ?_⟩
    simp [hfilter]
  · simp [markLostPass]
  · have hg : ∀ c, (if lostFilter sid now
          (if lostFilter sid now c then { c with recoveryStatus := RecoveryStatus.LOST } else c)
        then { (if lostFilter sid now c then { c with recoveryStatus := RecoveryStatus.LOST }
                else c) with recoveryStatus := RecoveryStatus.LOST }
        else (if lostFilter sid now c then { c with recoveryStatus := RecoveryStatus.LOST }
                else c))
        = (if lostFilter sid now c then { c with recoveryStatus := RecoveryStatus.LOST }
            else c) := by
      intro c
      by_cases h : lostFilter sid now c = true
      · have hlost : lostFilter sid now
            { c with recoveryStatus := RecoveryStatus.LOST } = false := by
          simp [lostFilter]
        simp [h, hlost]
      · have h2 : lostFilter sid now c = false := by
          cases hb : lostFilter sid now c
          · rfl
          · exact absurd hb h
        simp [h2]
    cases db with
    | mk stores carts products productMappings =>
        simp only [markLostPass, DB.mk.injEq, List.map_map, true_and, and_true,
          eq_self_iff_true]
        exact List.map_congr_left (fun c _ => hg c)
  · intro c hc hlost
    constructor
    · intro hmem
      have hp := (List.mem_filter.mp hmem).2
      rw [hlost] at hp
      simp at hp
    · intro hmem
      have hp := (List.mem_filter.mp hmem).2
      rw [hlost] at hp
      simp at hp

/-- C6 witness: a cart last notified at 0 and scanned at 48 hours plus 1
millisecond transitions to LOST, and the LOST record escapes both
notification selections. -/
theorem C6_lost_transition_witness :
  ({ exCart6 with recoveryStatus := RecoveryStatus.LOST }
      ∈ (markLostPass exDb6 "s6" (48 * hourMs + 1)).carts) ∧
  ((markLostPass exDb6 "s6" (48 * hourMs + 1)).carts.length = exDb6.carts.length) :=
  ⟨((C6_lost_transition exDb6 "s6" (48 * hourMs + 1)).1 exCart6 (by decide) rfl rfl 0 rfl
      (by decide)),
   (C6_lost_transition exDb6 "s6" (48 * hourMs + 1)).2.1⟩

/-- Past its validation and initialization gates, the manual recovery endpoint
first applies the recovery (the cart becomes RECOVERED with recoveredAt = now)
and only then resolves the recovery URL, answering redirect or server error by
that result over the already-updated state. -/
lemma recoverEndpoint_success_state (env : RemoteEnv) (db : DB) (now : Int)
    (cidParam codeParam : Option String) (cart : Cart)
    (hcid : strTruthy cidParam = true)
    (hfind : findCart db (orEmpty cidParam) = some cart)
    (hvalid : (strTruthy codeParam && strTruthy cart.discountCode &&
        !(orEmpty codeParam == orEmpty cart.discountCode)) = false)
    (hinit : initOk db cart.storeId = true) :
    recoverEndpointGET env db now cidParam codeParam
      = (match getCartRecoveryUrl env (processRecovery db now (orEmpty cidParam)).2
            (orEmpty cidParam) with
         | (none, db2) => (ApiResponse.serverError "Failed to get recovery URL", db2)
         | (some url, db2) => (ApiResponse.redirect url, db2)) ∧
    ∃ c2, findCart (getCartRecoveryUrl env (processRecovery db now (orEmpty cidParam)).2
            (orEmpty cidParam)).2 (orEmpty cidParam) = some c2 ∧
      c2.recoveryStatus = RecoveryStatus.RECOVERED ∧
      c2.recoveredAt = some now := by
  have hbeq := findCart_beq db (orEmpty cidParam) cart hfind
  have hpr : processRecovery db now (orEmpty cidParam)
      = (true, updateCart db (orEmpty cidParam) (fun c =>
          { c with recoveryStatus := RecoveryStatus.RECOVERED,
                   recoveredAt := some now })) := by
    simp [processRecovery, hfind]
  constructor
  · unfold recoverEndpointGET
    simp only [hcid, Bool.not_true, Bool.false_eq_true, if_false, hfind, hvalid, hinit,
      hpr]
  · rw [hpr]
    have hX : findCart (updateCart db (orEmpty cidParam) (fun c =>
        { c with recoveryStatus := RecoveryStatus.RECOVERED,
                 recoveredAt := some now })) (orEmpty cidParam)
        = some { cart with recoveryStatus := RecoveryStatus.RECOVERED,
                           recoveredAt := some now } := by
      rw [findCart_updateCart db (orEmpty cidParam) (orEmpty cidParam)
            (fun c => { c with recoveryStatus := RecoveryStatus.RECOVERED,
                               recoveredAt := some now }) (fun c => rfl), hfind]
      simp only [Option.map_some']
      rw [hbeq]
      simp
    obtain ⟨c2, hc2, _, _, hstatus2, _, hrecov2, _, _⟩ :=
      findCart_getRecoveryUrl env _ (orEmpty cidParam) (orEmpty cidParam) _ hX
    exact ⟨c2, hc2, hstatus2, hrecov2⟩

/-- C9: on the manual recovery endpoint, a provided code that differs from the
discount code carried by the cart is rejected with no change to any state,
while a request passing the validation and initialization gates whose recovery
URL resolves is answered by a redirect to that URL with the cart marked
RECOVERED. -/
theorem C9_manual_endpoint :
  ∀ (env : RemoteEnv) (db : DB) (now : Int) (cidParam codeParam : Option String)
      (cart : Cart),
    strTruthy cidParam = true →
    findCart db (orEmpty cidParam) = some cart →
    ((strTruthy codeParam = true → strTruthy cart.discountCode = true →
        orEmpty codeParam ≠ orEmpty cart.discountCode →
        recoverEndpointGET env db now cidParam codeParam
          = (ApiResponse.badRequest "Invalid discount code", db)) ∧
     ((strTruthy codeParam && strTruthy cart.discountCode &&
         !(orEmpty codeParam == orEmpty cart.discountCode)) = false →
      initOk db cart.storeId = true →
      ∀ url db2,
        getCartRecoveryUrl env (processRecovery db now (orEmpty cidParam)).2
            (orEmpty cidParam) = (some url, db2) →
        recoverEndpointGET env db now cidParam codeParam
          = (ApiResponse.redirect url, db2) ∧
        ∃ c2, findCart db2 (orEmpty cidParam) = some c2 ∧
          c2.recoveryStatus = RecoveryStatus.RECOVERED)) := by
  intro env db now cidParam codeParam cart hcid hfind
  constructor
  · intro hcodeT hdcT hne
    have hbeqf : (orEmpty codeParam == orEmpty cart.discountCode) = false :=
      beq_eq_false_iff_ne.mpr hne
    unfold recoverEndpointGET
    simp [hcid, hfind, hcodeT, hdcT, hbeqf]
  · intro hvalid hinit url db2 hurl
    obtain ⟨heq, c2, hc2, hstatus2, _⟩ :=
      recoverEndpoint_success_state env db now cidParam codeParam cart hcid hfind
        hvalid hinit
    rw [hurl] at heq hc2
    exact ⟨heq, c2, hc2, hstatus2⟩

/-- C9 witness: on the concrete cart carrying code SAVE10, a request with code
WRONG is rejected leaving the state unchanged, and a request with the matching
code is redirected with the cart RECOVERED. -/
theorem C9_manual_endpoint_witness :
  (recoverEndpointGET happyEnv exDb9 11 (some "c9") (some "WRONG")
      = (ApiResponse.badRequest "Invalid discount code", exDb9)) ∧
  (recoverEndpointGET happyEnv exDb9 11 (some "c9") (some "SAVE10")
      = (ApiResponse.redirect
          ("https://shop.example/checkout?c=1" ++ "&discount=" ++ "SAVE10"),
         (getCartRecoveryUrl happyEnv (processRecovery exDb9 11 "c9").2 "c9").2) ∧
    ∃ c2, findCart (getCartRecoveryUrl happyEnv
        (processRecovery exDb9 11 "c9").2 "c9").2 "c9" = some c2 ∧
      c2.recoveryStatus = RecoveryStatus.RECOVERED) :=
  ⟨(C9_manual_endpoint happyEnv exDb9 11 (some "c9") (some "WRONG") exCart9 rfl rfl).1
      rfl rfl (by decide),
   (C9_manual_endpoint happyEnv exDb9 11 (some "c9") (some "SAVE10") exCart9 rfl rfl).2
      rfl rfl ("https://shop.example/checkout?c=1" ++ "&discount=" ++ "SAVE10")
      (getCartRecoveryUrl happyEnv (processRecovery exDb9 11 "c9").2 "c9").2 rfl⟩

/-- C10: when the request passes validation and initialization and
processRecovery succeeds but the recovery URL resolves to null, the endpoint
answers a server error while the cart stays RECOVERED with its recovered
timestamp set: the status change is not rolled back. -/
theorem C10_no_rollback :
  ∀ (env : RemoteEnv) (db : DB) (now : Int) (cidParam codeParam : Option String)
      (cart : Cart),
    strTruthy cidParam = true →
    findCart db (orEmpty cidParam) = some cart →
    (strTruthy codeParam && strTruthy cart.discountCode &&
        !(orEmpty codeParam == orEmpty cart.discountCode)) = false →
    initOk db cart.storeId = true →
    ∀ db2,
      getCartRecoveryUrl env (processRecovery db now (orEmpty cidParam)).2
          (orEmpty cidParam) = (none, db2) →
      recoverEndpointGET env db now cidParam codeParam
        = (ApiResponse.serverError "Failed to get recovery URL", db2) ∧
      ∃ c2, findCart db2 (orEmpty cidParam) = some c2 ∧
        c2.recoveryStatus = RecoveryStatus.RECOVERED ∧
        c2.recoveredAt = some now := by
  intro env db now cidParam codeParam cart hcid hfind hvalid hinit db2 hurl
  obtain ⟨heq, c2, hc2, hstatus2, hrecov2⟩ :=
    recoverEndpoint_success_state env db now cidParam codeParam cart hcid hfind
      hvalid hinit
  rw [hurl] at heq hc2
  exact ⟨heq, c2, hc2, hstatus2, hrecov2⟩

/-- C10 witness: with the remote-cart fetch failing, the concrete request is
answered by the server error while cart c9 is already RECOVERED with
recoveredAt = 13. -/
theorem C10_no_rollback_witness :
  recoverEndpointGET fetchFailEnv exDb9 13 (some "c9") none
      = (ApiResponse.serverError "Failed to get recovery URL",
         (getCartRecoveryUrl fetchFailEnv (processRecovery exDb9 13 "c9").2 "c9").2) ∧
  ∃ c2, findCart (getCartRecoveryUrl fetchFailEnv
      (processRecovery exDb9 13 "c9").2 "c9").2 "c9" = some c2 ∧
    c2.recoveryStatus = RecoveryStatus.RECOVERED ∧
    c2.recoveredAt = some 13 :=
  C10_no_rollback fetchFailEnv exDb9 13 (some "c9") none exCart9 rfl rfl rfl rfl
    (getCartRecoveryUrl fetchFailEnv (processRecovery exDb9 13 "c9").2 "c9").2 rfl

end Metastore
